import Mathlib

/-!
Verification development for the TikTok API integration repository.

Shallow embedding of the OAuth callback handler (`app/api/v1/endpoints/auth.py`),
the OAuth client (`app/core/oauth.py`), the token encryption wrapper
(`app/core/security.py`) and the analytics service
(`app/services/analytics_service.py`), together with proofs about the
specification's claims.

Modelling conventions:
* Python floats are modelled as exact rationals (`ℚ`); Python's `round`
  (banker's rounding, round-half-to-even) is modelled by `pyRoundInt`.
* Python dictionaries with `.get(key, default)` access are modelled as
  structures with `Option` fields read through `Option.getD`.
* External I/O (the Redis cache, the SQL database, the provider's token
  endpoint, the Fernet cipher) is modelled by explicit state passing and
  oracle parameters; each request handler is a pure function from the
  request plus a world state to a response plus the successor world state.
-/

namespace TikTokApi

/-- Python `round` to an integer: round half to even (banker's rounding). -/
def pyRoundInt (q : ℚ) : ℤ :=
  let n : ℤ := ⌊q⌋
  let frac : ℚ := q - (n : ℚ)
  if frac < 1/2 then n
  else if 1/2 < frac then n + 1
  else if n % 2 = 0 then n else n + 1

/-- Python `round(x, 0)` on our rational model of floats. -/
def pyRound0 (q : ℚ) : ℚ := (pyRoundInt q : ℚ)

/-- Python `round(x, 2)` on our rational model of floats. -/
def pyRound2 (q : ℚ) : ℚ := (pyRoundInt (q * 100) : ℚ) / 100

/-! ## Video records (aggregation input of `AnalyticsService`)

A video is a Python dict in the source; every counter is read with
`video.get(field, 0)`, so a missing field behaves as the default. -/

structure Video where
  id : String := ""
  video_description : String := ""
  create_time : Option Nat := none
  view_count : Option Nat := none
  like_count : Option Nat := none
  comment_count : Option Nat := none
  share_count : Option Nat := none
deriving DecidableEq, Repr

/-- `video.get("view_count", 0)` -/
def viewsOf (v : Video) : Nat := v.view_count.getD 0

/-- `video.get("like_count", 0)` -/
def likesOf (v : Video) : Nat := v.like_count.getD 0

/-- `video.get("comment_count", 0)` -/
def commentsOf (v : Video) : Nat := v.comment_count.getD 0

/-- `video.get("share_count", 0)` -/
def sharesOf (v : Video) : Nat := v.share_count.getD 0

/-- `video.get("create_time", 0)` -/
def createOf (v : Video) : Nat := v.create_time.getD 0

/-- `(likes + comments + shares) / views * 100` (only evaluated when
`views > 0` in the source). -/
def engagementRate (v : Video) : ℚ :=
  ((likesOf v + commentsOf v + sharesOf v : ℚ) / (viewsOf v : ℚ)) * 100

/-- The `engagement_rate` annotation written back onto each video:
the rate when `views > 0`, else `0`. -/
def annotatedRate (v : Video) : ℚ :=
  if 0 < viewsOf v then engagementRate v else 0

/-- The `engagement_rates` list built by the loop in
`calculate_engagement_metrics` (one entry per video with `views > 0`,
in input order). -/
def engagementRates : List Video → List ℚ
  | [] => []
  | v :: rest =>
      if 0 < viewsOf v then engagementRate v :: engagementRates rest
      else engagementRates rest

/-- `sum(v.get("view_count", 0) for v in videos)` -/
def totalViews (videos : List Video) : Nat := (videos.map viewsOf).sum

/-- `sum(v.get("like_count", 0) for v in videos)` -/
def totalLikes (videos : List Video) : Nat := (videos.map likesOf).sum

/-- `sum(v.get("comment_count", 0) for v in videos)` -/
def totalComments (videos : List Video) : Nat := (videos.map commentsOf).sum

/-- `sum(v.get("share_count", 0) for v in videos)` -/
def totalShares (videos : List Video) : Nat := (videos.map sharesOf).sum

/-- Line 46 of `analytics_service.py`:
`avg_engagement_rate = sum(engagement_rates) / len(engagement_rates) if engagement_rates else 0`. -/
def avgEngagementRate (videos : List Video) : ℚ :=
  let er := engagementRates videos
  if er = [] then 0 else er.sum / (er.length : ℚ)

/-- Python `max(xs, key=k)`: the first element attaining the maximal key
(later elements replace the current maximum only when strictly greater). -/
def pyMaxBy {α : Type} (key : α → ℚ) : List α → Option α
  | [] => none
  | x :: rest => some (rest.foldl (fun acc y => if key acc < key y then y else acc) x)

/-- Summary of a selected video in the result dict. -/
structure VideoSummary where
  id : String
  metric : ℚ
  description : String
deriving DecidableEq, Repr

/-- Result dict of `calculate_engagement_metrics`. -/
structure EngagementMetrics where
  total_videos : Nat
  total_views : Nat
  total_likes : Nat
  total_comments : Nat
  total_shares : Nat
  avg_engagement_rate : ℚ
  avg_views_per_video : ℚ
  most_viewed_video : Option VideoSummary
  best_engagement_video : Option VideoSummary
deriving DecidableEq, Repr

/-- `AnalyticsService.calculate_engagement_metrics` (analytics_service.py 11-70). -/
def calculate_engagement_metrics (videos : List Video) : EngagementMetrics :=
  if videos = [] then
    { total_videos := 0, total_views := 0, total_likes := 0,
      total_comments := 0, total_shares := 0,
      avg_engagement_rate := 0, avg_views_per_video := 0,
      most_viewed_video := none, best_engagement_video := none }
  else
    { total_videos := videos.length
      total_views := totalViews videos
      total_likes := totalLikes videos
      total_comments := totalComments videos
      total_shares := totalShares videos
      avg_engagement_rate := pyRound2 (avgEngagementRate videos)
      avg_views_per_video := pyRound0 ((totalViews videos : ℚ) / (videos.length : ℚ))
      most_viewed_video :=
        (pyMaxBy (fun v => (viewsOf v : ℚ)) videos).map fun v =>
          { id := v.id, metric := (viewsOf v : ℚ),
            description := v.video_description.take 100 }
      best_engagement_video :=
        (pyMaxBy annotatedRate videos).map fun v =>
          { id := v.id, metric := pyRound2 (annotatedRate v),
            description := v.video_description.take 100 } }

/-! ## Week bucketing (`calculate_growth_trends`)

`week_key = datetime.fromtimestamp(create_time).strftime("%Y-W%U")`.
`fromtimestamp` is read in the server's timezone; the deployment runs in
UTC, which is what the embedding computes.  `%U` is the C-library
Sunday-based week number `(yday + 7 - wday) / 7`. -/

/-- Days since the epoch to a proleptic-Gregorian (year, month, day),
by era decomposition.  All divisions are floor divisions on nonnegative
quantities, so `Nat` arithmetic is exact. -/
def civilFromDays (days : Nat) : Nat × Nat × Nat :=
  let z := days + 719468
  let era := z / 146097
  let doe := z % 146097
  let yoe := (doe - doe / 1460 + doe / 36524 - doe / 146096) / 365
  let y := yoe + era * 400
  let doy := doe - (365 * yoe + yoe / 4 - yoe / 100)
  let mp := (5 * doy + 2) / 153
  let d := doy - (153 * mp + 2) / 5 + 1
  let m := if mp < 10 then mp + 3 else mp - 9
  (if m ≤ 2 then y + 1 else y, m, d)

/-- Gregorian leap-year test. -/
def isLeapYear (y : Nat) : Bool :=
  y % 4 = 0 && (y % 100 ≠ 0 || y % 400 = 0)

/-- Zero-based day of the year (`tm_yday`). -/
def dayOfYear (y m d : Nat) : Nat :=
  [0, 31, 59, 90, 120, 151, 181, 212, 243, 273, 304, 334].getD (m - 1) 0
    + (d - 1) + (if 2 < m && isLeapYear y then 1 else 0)

/-- Two-digit zero-padded decimal (as used by `%U`). -/
def pad2 (n : Nat) : String :=
  if n < 10 then "0" ++ Nat.repr n else Nat.repr n

/-- `datetime.fromtimestamp(t).strftime("%Y-W%U")` for a nonnegative epoch
timestamp, evaluated in UTC. -/
def weekKey (t : Nat) : String :=
  let days := t / 86400
  let ymd := civilFromDays days
  let yd := dayOfYear ymd.1 ymd.2.1 ymd.2.2
  let wd := (days + 4) % 7
  Nat.repr ymd.1 ++ "-W" ++ pad2 ((yd + 7 - wd) / 7)

/-! ## Stable sorting (Python `sorted`) -/

/-- Insert `x` after all already-placed elements `y` with `le y x`
(keeps the sort stable, as Python's `sorted` is). -/
def insertSorted {α : Type} (le : α → α → Bool) (x : α) : List α → List α
  | [] => [x]
  | y :: ys => if le y x then y :: insertSorted le x ys else x :: y :: ys

/-- Stable sort by a boolean `≤` test; agrees with Python's `sorted` for a
total preorder since the stable sort is unique. -/
def pySorted {α : Type} (le : α → α → Bool) (l : List α) : List α :=
  l.foldl (fun acc x => insertSorted le x acc) []

/-- Code-point lexicographic `≤` on character lists (Python string order). -/
def charsLe : List Char → List Char → Bool
  | [], _ => true
  | _ :: _, [] => false
  | a :: as, b :: bs =>
      if a.toNat < b.toNat then true
      else if b.toNat < a.toNat then false
      else charsLe as bs

/-- Python `≤` on strings. -/
def strLe (a b : String) : Bool := charsLe a.data b.data

/-! ## Weekly aggregation state -/

/-- The per-week defaultdict entry of `calculate_growth_trends`. -/
structure WeekStats where
  views : Nat := 0
  likes : Nat := 0
  comments : Nat := 0
  shares : Nat := 0
  count : Nat := 0
  engagement : ℚ := 0
deriving DecidableEq, Repr

/-- Accumulate one video into a week bucket (lines 101-115 of
`analytics_service.py`); engagement is only added when `views > 0`. -/
def addVideoToWeek (s : WeekStats) (v : Video) : WeekStats :=
  { views := s.views + viewsOf v
    likes := s.likes + likesOf v
    comments := s.comments + commentsOf v
    shares := s.shares + sharesOf v
    count := s.count + 1
    engagement :=
      if 0 < viewsOf v then s.engagement + engagementRate v else s.engagement }

/-- defaultdict update: modify the entry of key `k` in place if present,
else append a fresh entry (preserving Python dict insertion order). -/
def updateWeek : List (String × WeekStats) → String → Video → List (String × WeekStats)
  | [], k, v => [(k, addVideoToWeek {} v)]
  | (k', s) :: rest, k, v =>
      if k' = k then (k', addVideoToWeek s v) :: rest
      else (k', s) :: updateWeek rest k v

/-- One iteration of the bucketing loop: `if create_time:` skips a missing
or zero timestamp. -/
def bucketStep (acc : List (String × WeekStats)) (v : Video) : List (String × WeekStats) :=
  if createOf v = 0 then acc else updateWeek acc (weekKey (createOf v)) v

/-- `sorted(videos, key=lambda x: x.get("create_time", 0))`. -/
def sortVideos (videos : List Video) : List Video :=
  pySorted (fun a b => decide (createOf a ≤ createOf b)) videos

/-- The `weekly_data` mapping after the bucketing loop. -/
def weeklyDataOf (videos : List Video) : List (String × WeekStats) :=
  (sortVideos videos).foldl bucketStep []

/-- `weekly_data[week]` for a key that is present (default stats otherwise;
the source only looks up keys of the dict). -/
def lookupWeek (wd : List (String × WeekStats)) (k : String) : WeekStats :=
  ((wd.find? (fun p => p.1 == k)).map (·.2)).getD {}

/-! ## Trend computation -/

/-- The `non_zero_values` loop of `_calculate_trend`: values are dropped
until the first positive one, after which everything is kept. -/
def stripLead : List ℚ → List ℚ
  | [] => []
  | v :: rest => if 0 < v then v :: rest else stripLead rest

/-- `AnalyticsService._calculate_trend` (analytics_service.py 156-179). -/
def calculateTrend (values : List ℚ) : ℚ :=
  if values.length < 2 then 0
  else
    let nz := stripLead values
    if nz.length < 2 then 0
    else
      let mid := nz.length / 2
      let firstHalfAvg := if 0 < mid then (nz.take mid).sum / (mid : ℚ) else 0
      let tail := nz.drop mid
      let secondHalfAvg := if tail = [] then 0 else tail.sum / (tail.length : ℚ)
      if firstHalfAvg = 0 then (if 0 < secondHalfAvg then 100 else 0)
      else ((secondHalfAvg - firstHalfAvg) / firstHalfAvg) * 100

/-- Modelled from the spec's words (claim C4), for comparison with
`calculateTrend`: split the handed sequence itself at its midpoint by
integer division, average each half, `(second − first) / first × 100`,
with the zero-first-half special case. -/
def claimTrend (values : List ℚ) : ℚ :=
  if values.length < 2 then 0
  else
    let mid := values.length / 2
    let firstHalfAvg := (values.take mid).sum / (mid : ℚ)
    let secondHalfAvg := (values.drop mid).sum / ((values.length - mid : Nat) : ℚ)
    if firstHalfAvg = 0 then (if 0 < secondHalfAvg then 100 else 0)
    else ((secondHalfAvg - firstHalfAvg) / firstHalfAvg) * 100

/-- Result dict of `calculate_growth_trends`. -/
structure GrowthTrends where
  weekly_view_trend : ℚ
  weekly_engagement_trend : ℚ
  posting_frequency : ℚ
  best_performing_week : Option String
deriving DecidableEq, Repr

/-- Python `l[-n:]`. -/
def takeLast {α : Type} (n : Nat) (l : List α) : List α :=
  l.drop (l.length - n)

/-- Lines 117-153 of `analytics_service.py`, as a function of the weekly
buckets and the total input length. -/
def growthFromWD (wd : List (String × WeekStats)) (totalVideos : Nat) : GrowthTrends :=
  let sortedWeeks := pySorted strLe (wd.map (·.1))
  let recentWeeks := if 4 ≤ sortedWeeks.length then takeLast 4 sortedWeeks else sortedWeeks
  let viewTrend :=
    if 2 ≤ recentWeeks.length then
      calculateTrend (recentWeeks.map (fun w => ((lookupWeek wd w).views : ℚ)))
    else 0
  let engagementTrend :=
    if 2 ≤ recentWeeks.length then
      calculateTrend (recentWeeks.map (fun w =>
        let s := lookupWeek wd w
        if 0 < s.count then s.engagement / (s.count : ℚ) else 0))
    else 0
  let postingFrequency := if 0 < wd.length then (totalVideos : ℚ) / (wd.length : ℚ) else 0
  let bestWeek := pyMaxBy (fun p => ((p.2).views : ℚ)) wd
  { weekly_view_trend := pyRound2 viewTrend
    weekly_engagement_trend := pyRound2 engagementTrend
    posting_frequency := pyRound2 postingFrequency
    best_performing_week := bestWeek.map (·.1) }

/-- `AnalyticsService.calculate_growth_trends` (analytics_service.py 72-154). -/
def calculate_growth_trends (videos : List Video) : GrowthTrends :=
  if videos.length < 2 then
    { weekly_view_trend := 0, weekly_engagement_trend := 0,
      posting_frequency := 0, best_performing_week := none }
  else growthFromWD (weeklyDataOf videos) videos.length

/-- Sanity check of the calendar embedding: the epoch is Thursday,
1970-01-01, in week `1970-W00`. -/
theorem weekKey_epoch : weekKey 0 = "1970-W00" := by decide

/-- Sanity check: 1970-01-05 was the first Monday following the first
Sunday of 1970, so it falls in week `1970-W01`. -/
theorem weekKey_jan5 : weekKey (4 * 86400) = "1970-W01" := by decide

/-! ## Byte-level primitives used by `app/core/oauth.py`

`base64.urlsafe_b64encode(x).rstrip(b'=')`, UTF-8 encoding, and
`hashlib.sha256`, embedded over byte lists (`Nat` values below 256). -/

/-- The URL-safe base64 alphabet. -/
def b64UrlChar (n : Nat) : Char :=
  "ABCDEFGHIJKLMNOPQRSTUVWXYZabcdefghijklmnopqrstuvwxyz0123456789-_".data.getD n 'A'

/-- Base64 of a byte list, URL-safe alphabet, with the `=` padding already
stripped (a leftover of 1 byte yields 2 characters, of 2 bytes yields 3). -/
def b64UrlGroups : List Nat → List Char
  | [] => []
  | [b1] => [b64UrlChar (b1 / 4), b64UrlChar (b1 % 4 * 16)]
  | [b1, b2] =>
      [b64UrlChar (b1 / 4), b64UrlChar (b1 % 4 * 16 + b2 / 16), b64UrlChar (b2 % 16 * 4)]
  | b1 :: b2 :: b3 :: rest =>
      b64UrlChar (b1 / 4) :: b64UrlChar (b1 % 4 * 16 + b2 / 16) ::
      b64UrlChar (b2 % 16 * 4 + b3 / 64) :: b64UrlChar (b3 % 64) :: b64UrlGroups rest

/-- `base64.urlsafe_b64encode(bytes).rstrip(b'=').decode('utf-8')`. -/
def b64UrlNoPad (bytes : List Nat) : String := String.mk (b64UrlGroups bytes)

/-- UTF-8 encoding of one code point. -/
def utf8Char (c : Nat) : List Nat :=
  if c < 128 then [c]
  else if c < 2048 then [192 + c / 64, 128 + c % 64]
  else if c < 65536 then [224 + c / 4096, 128 + c / 64 % 64, 128 + c % 64]
  else [240 + c / 262144, 128 + c / 4096 % 64, 128 + c / 64 % 64, 128 + c % 64]

/-- `s.encode('utf-8')` as a byte list. -/
def utf8Bytes (s : String) : List Nat :=
  (s.data.map (fun c => utf8Char c.toNat)).flatten

/-- Reduction modulo 2^32. -/
def m32 (n : Nat) : Nat := n % 4294967296

/-- 32-bit addition. -/
def add32 (a b : Nat) : Nat := (a + b) % 4294967296

/-- 32-bit right rotation. -/
def rotr32 (n x : Nat) : Nat := ((x >>> n) ||| (x <<< (32 - n))) % 4294967296

/-- SHA-256 Ch. -/
def shaCh (x y z : Nat) : Nat := (x &&& y) ^^^ ((x ^^^ 4294967295) &&& z)

/-- SHA-256 Maj. -/
def shaMaj (x y z : Nat) : Nat := (x &&& y) ^^^ (x &&& z) ^^^ (y &&& z)

/-- SHA-256 Σ0. -/
def bsig0 (x : Nat) : Nat := rotr32 2 x ^^^ rotr32 13 x ^^^ rotr32 22 x

/-- SHA-256 Σ1. -/
def bsig1 (x : Nat) : Nat := rotr32 6 x ^^^ rotr32 11 x ^^^ rotr32 25 x

/-- SHA-256 σ0. -/
def ssig0 (x : Nat) : Nat := rotr32 7 x ^^^ rotr32 18 x ^^^ (x >>> 3)

/-- SHA-256 σ1. -/
def ssig1 (x : Nat) : Nat := rotr32 17 x ^^^ rotr32 19 x ^^^ (x >>> 10)

/-- SHA-256 round constants (FIPS 180-4, written in decimal). -/
def shaK : List Nat :=
  [1116352408, 1899447441, 3049323471, 3921009573, 961987163, 1508970993,
   2453635748, 2870763221, 3624381080, 310598401, 607225278, 1426881987,
   1925078388, 2162078206, 2614888103, 3248222580, 3835390401, 4022224774,
   264347078, 604807628, 770255983, 1249150122, 1555081692, 1996064986,
   2554220882, 2821834349, 2952996808, 3210313671, 3336571891, 3584528711,
   113926993, 338241895, 666307205, 773529912, 1294757372, 1396182291,
   1695183700, 1986661051, 2177026350, 2456956037, 2730485921, 2820302411,
   3259730800, 3345764771, 3516065817, 3600352804, 4094571909, 275423344,
   430227734, 506948616, 659060556, 883997877, 958139571, 1322822218,
   1537002063, 1747873779, 1955562222, 2024104815, 2227730452, 2361852424,
   2428436474, 2756734187, 3204031479, 3329325298]

/-- Big-endian byte decomposition of `n` into `len` bytes. -/
def toBytesBE (len n : Nat) : List Nat :=
  (List.range len).map (fun i => n / 256 ^ (len - 1 - i) % 256)

/-- SHA-256 message padding: `0x80`, zeros up to 56 mod 64, then the
bit length on 8 big-endian bytes. -/
def padMessage (msg : List Nat) : List Nat :=
  let L := msg.length
  msg ++ [128] ++ List.replicate ((56 + 64 - (L + 1) % 64) % 64) 0
      ++ toBytesBE 8 (L * 8)

/-- Split a byte list into 64-byte blocks (fuelled structural recursion;
each step consumes at least one byte, so the input length is enough fuel). -/
def chunks64Go : Nat → List Nat → List (List Nat)
  | 0, _ => []
  | _, [] => []
  | fuel + 1, x :: xs => ((x :: xs).take 64) :: chunks64Go fuel ((x :: xs).drop 64)

/-- Split a byte list into 64-byte blocks. -/
def chunks64 (l : List Nat) : List (List Nat) := chunks64Go l.length l

/-- The 16 initial schedule words of a block (big-endian). -/
def wordsOfBlock (block : List Nat) : List Nat :=
  (List.range 16).map (fun i =>
    block.getD (4 * i) 0 * 16777216 + block.getD (4 * i + 1) 0 * 65536
      + block.getD (4 * i + 2) 0 * 256 + block.getD (4 * i + 3) 0)

/-- Extend the schedule from 16 to 64 words. -/
def extendSchedule (w16 : List Nat) : List Nat :=
  (List.range 48).foldl (fun w _ =>
    let n := w.length
    w ++ [add32 (add32 (ssig1 (w.getD (n - 2) 0)) (w.getD (n - 7) 0))
            (add32 (ssig0 (w.getD (n - 15) 0)) (w.getD (n - 16) 0))]) w16

/-- Compress one 64-byte block into the running hash (8 words). -/
def compressBlock (h : List Nat) (block : List Nat) : List Nat :=
  let w := extendSchedule (wordsOfBlock block)
  let final := (List.range 64).foldl (fun st t =>
    let a := st.getD 0 0
    let b := st.getD 1 0
    let c := st.getD 2 0
    let d := st.getD 3 0
    let e := st.getD 4 0
    let f := st.getD 5 0
    let g := st.getD 6 0
    let hh := st.getD 7 0
    let t1 := add32 hh (add32 (add32 (bsig1 e) (shaCh e f g))
                          (add32 (shaK.getD t 0) (w.getD t 0)))
    let t2 := add32 (bsig0 a) (shaMaj a b c)
    [add32 t1 t2, a, b, c, add32 d t1, e, f, g]) h
  List.zipWith add32 h final

/-- `hashlib.sha256(msg).digest()` as a byte list. -/
def sha256 (msg : List Nat) : List Nat :=
  let H0 : List Nat :=
    [1779033703, 3144134277, 1013904242, 2773480762,
     1359893119, 2600822924, 528734635, 1541459225]
  (((chunks64 (padMessage msg)).foldl compressBlock H0).map (toBytesBE 4)).flatten

/-- `TikTokOAuth2.generate_pkce_pair` (oauth.py 26-32), as a function of the
32 random bytes drawn by `secrets.token_bytes(32)`.  Returns
`(code_verifier, code_challenge)`. -/
def generate_pkce_pair (randomBytes : List Nat) : String × String :=
  let code_verifier := b64UrlNoPad randomBytes
  let code_challenge := b64UrlNoPad (sha256 (utf8Bytes code_verifier))
  (code_verifier, code_challenge)

/-! ## Authorization URL builders -/

/-- Characters `urllib.parse.quote_plus` leaves unescaped. -/
def isUrlSafeChar (c : Char) : Bool :=
  c.isAlphanum || c = '_' || c = '.' || c = '-' || c = '~'

/-- Uppercase hexadecimal digit. -/
def hexUpper (n : Nat) : Char := "0123456789ABCDEF".data.getD n '0'

/-- Percent-encoding of one byte. -/
def percentByte (b : Nat) : List Char := ['%', hexUpper (b / 16), hexUpper (b % 16)]

/-- `urllib.parse.quote_plus`. -/
def quotePlus (s : String) : String :=
  String.mk ((s.data.map (fun c =>
    if isUrlSafeChar c then [c]
    else if c = ' ' then ['+']
    else ((utf8Char c.toNat).map percentByte).flatten)).flatten)

/-- `urllib.parse.urlencode` over an insertion-ordered parameter list. -/
def urlencode (params : List (String × String)) : String :=
  String.intercalate "&" (params.map (fun p => quotePlus p.1 ++ "=" ++ quotePlus p.2))

/-- The scope string of `TikTokOAuth2.get_authorization_url` (oauth.py 42). -/
def authorizeScopes : String := "user.info.basic"

/-- The query-parameter dict built by `TikTokOAuth2.get_authorization_url`
(oauth.py 45-53), in insertion order. -/
def authUrlParams (clientKey redirectUri state codeChallenge : String) :
    List (String × String) :=
  [("client_key", clientKey), ("scope", authorizeScopes),
   ("response_type", "code"), ("redirect_uri", redirectUri), ("state", state),
   ("code_challenge", codeChallenge), ("code_challenge_method", "S256")]

/-- `TikTokOAuth2.get_authorization_url` (oauth.py 34-57), as a function of
the configured client key and redirect URI, the PKCE randomness, the state
randomness, and the optional caller-supplied state.  Returns
`(authorization_url, state, code_verifier)`. -/
def get_authorization_url (clientKey redirectUri : String)
    (pkceRandom stateRandom : List Nat) (stateArg : Option String) :
    String × String × String :=
  let pair := generate_pkce_pair pkceRandom
  let state := if stateArg.getD "" = "" then b64UrlNoPad stateRandom else stateArg.getD ""
  ("https://www.tiktok.com/v2/auth/authorize?"
     ++ urlencode (authUrlParams clientKey redirectUri state pair.2),
   state, pair.1)

/-- The comma-joined scope string of the `/auth/login/tiktok` endpoint
(auth.py 95). -/
def loginTiktokScopes : String :=
  "user.info.basic,video.list,artist.certification.read,artist.certification.update,user.info.profile,user.info.stats,video.list"

/-- The query-parameter dict built by `login_tiktok` (auth.py 98-105),
in insertion order. -/
def loginTiktokParams (clientKey redirectUri state : String) :
    List (String × String) :=
  [("client_key", clientKey), ("scope", loginTiktokScopes),
   ("response_type", "code"), ("redirect_uri", redirectUri), ("state", state)]

/-- The redirect URL built by `login_tiktok` (auth.py 108). -/
def login_tiktok_url (clientKey redirectUri state : String) : String :=
  "https://www.tiktok.com/v2/auth/authorize/?"
    ++ urlencode (loginTiktokParams clientKey redirectUri state)

set_option maxRecDepth 100000 in
/-- Sanity check of the SHA-256 embedding against the FIPS 180 test vector
for `"abc"`. -/
theorem sha256_abc :
    sha256 (utf8Bytes "abc") =
      [186, 120, 22, 191, 143, 1, 207, 234,
       65, 65, 64, 222, 93, 174, 34, 35,
       176, 3, 97, 163, 150, 23, 122, 156,
       180, 16, 255, 97, 242, 0, 21, 173] := by decide

/-- Sanity check of the unpadded URL-safe base64 embedding. -/
theorem b64UrlNoPad_check : b64UrlNoPad [251, 239, 190] = "----" := by decide

/-! ## Token encryption wrapper (`app/core/security.py` 39-86)

The wrapper code is embedded exactly; the Fernet cipher itself is an
external library, modelled as a pair of string functions carried by the
structure (`self.fernet.encrypt` / `self.fernet.decrypt`). -/

/-- `TokenEncryption`: the Fernet instance is external, so it is carried
as the two string maps the wrapper calls. -/
structure TokenEncryption where
  fernetEncrypt : String → String
  fernetDecrypt : String → String

/-- `TokenEncryption.encrypt` (security.py 68-75): empty input short-circuits
to the empty string, otherwise the Fernet ciphertext is returned. -/
def TokenEncryption.encrypt (te : TokenEncryption) (data : String) : String :=
  if data = "" then "" else te.fernetEncrypt data

/-- `TokenEncryption.decrypt` (security.py 77-86): empty input short-circuits
to the empty string, otherwise the Fernet plaintext is returned. -/
def TokenEncryption.decrypt (te : TokenEncryption) (encryptedData : String) : String :=
  if encryptedData = "" then "" else te.fernetDecrypt encryptedData

/-! ## The callback handler (`app/api/v1/endpoints/auth.py` 165-272)

`tiktok_callback_handler` is embedded as a pure function from the request,
an oracle for the provider's token-endpoint call, and the world state
(Pending-Authorization Store entries, user rows, token rows) to a response
plus the successor world and the list of store/database effects performed. -/

/-- HTTP method of the inbound call (the route accepts GET and POST). -/
inductive Method
  | GET
  | POST
deriving DecidableEq, Repr

/-- The session payload cached under `oauth_state:{state}`; the handler reads
both fields with `.get`, so they are optional. -/
structure SessionData where
  user_id : Option Nat := none
  code_verifier : Option String := none
deriving DecidableEq, Repr

/-- The validated token-endpoint response (`TikTokTokenResponse`). -/
structure TikTokTokenResponse where
  access_token : String
  refresh_token : String
  open_id : String
  scope : String
  expires_in : Nat
deriving DecidableEq, Repr

/-- A persisted `Token` row (the Credential Vault row); `expires_at` is the
absolute epoch expiry computed from the current time. -/
structure TokenRow where
  user_id : Nat
  token_type : String
  access_token : String
  refresh_token : String
  expires_at : Nat
  open_id : String
  scopes : String
  is_active : Bool
deriving DecidableEq, Repr

/-- A `User` row, with the cached provider identifier. -/
structure UserRow where
  id : Nat
  tiktok_open_id : Option String := none
deriving DecidableEq, Repr

/-- The mutable world the handler touches: live Pending-Authorization Store
entries (an expired or deleted entry is simply absent), user rows and token
rows.  The store maps full cache keys (`oauth_state:{state}`) to payloads. -/
structure World where
  cache : List (String × SessionData)
  users : List UserRow
  tokens : List TokenRow
deriving DecidableEq, Repr

/-- The inbound request's query parameters, as FastAPI binds them. -/
structure CallbackRequest where
  method : Method
  code : Option String := none
  state : Option String := none
  error : Option String := none
  error_description : Option String := none
  challenge : Option Nat := none
deriving DecidableEq, Repr

/-- The handler's terminal outcome: the webhook challenge echo
(`JSONResponse({'challenge': challenge})`), the success message, the neutral
default message, or a raised `HTTPException`. -/
inductive Response
  | challengeEcho (value : Nat)
  | success (message : String)
  | neutral (message : String)
  | httpError (statusCode : Nat) (errorCode : Option String) (message : String)
deriving DecidableEq, Repr

/-- Store and database interactions performed by the handler, in order. -/
inductive Effect
  | cacheGet (key : String)
  | cacheDelete (key : String)
  | dbCommit
  | dbRollback
deriving DecidableEq, Repr

/-- Response plus successor world plus effect trace. -/
structure HandlerResult where
  response : Response
  world : World
  effects : List Effect
deriving DecidableEq, Repr

/-- Python truthiness of an `Optional[str]`: `None` and `""` are falsy. -/
def truthyStr : Option String → Bool
  | none => false
  | some s => s ≠ ""

/-- Python truthiness of an `Optional[int]`: `None` and `0` are falsy. -/
def truthyNat : Option Nat → Bool
  | none => false
  | some n => n ≠ 0

/-- An exception thrown inside the handler's `try` block: either an
`HTTPException` (status, structured detail) or an ordinary exception with a
message (e.g. the token-exchange failure or timeout). -/
inductive InnerError
  | http (statusCode : Nat) (errorCode : Option String) (message : String)
  | exc (message : String)
deriving DecidableEq, Repr

/-- Python `str(e)` for the caught exception, interpolated into the final
500 detail: an `HTTPException` prints as `"{status_code}: {detail}"` with
the dict detail in Python repr, a plain exception prints its message. -/
def renderInnerError : InnerError → String
  | .http statusCode (some errorCode) message =>
      Nat.repr statusCode ++ ": \x7b'error_code': '" ++ errorCode
        ++ "', 'message': '" ++ message ++ "'\x7d"
  | .http statusCode none message => Nat.repr statusCode ++ ": " ++ message
  | .exc message => message

/-- The neutral default acknowledgment (auth.py 272). -/
def neutralMessage : String :=
  "TikTok callback endpoint is active and waiting for a valid request."

/-- The body of the `try` block (auth.py 202-263): store lookup, session
validation, user fetch, token exchange, credential upsert, commit, store
delete.  Errors are thrown to the surrounding `except` together with the
effects performed so far. -/
def callbackTryBlock (te : TokenEncryption)
    (exchangeResult : Except String TikTokTokenResponse) (now : Nat)
    (cacheKey : String) (w : World) :
    Except (InnerError × List Effect) HandlerResult :=
  match (w.cache.find? (fun p => p.1 == cacheKey)).map (·.2) with
  | none =>
      .error (.http 400 (some "INVALID_OR_EXPIRED_STATE")
        "Invalid or expired OAuth state. Please try logging in again.",
        [Effect.cacheGet cacheKey])
  | some sessionData =>
      if ¬ (truthyNat sessionData.user_id ∧ truthyStr sessionData.code_verifier) then
        .error (.http 400 (some "INVALID_SESSION_DATA")
          "Could not find 'user_id' or 'code_verifier' in cached session data.",
          [Effect.cacheGet cacheKey])
      else
        match w.users.find? (fun u => u.id == sessionData.user_id.getD 0) with
        | none => .error (.http 404 none "User not found.", [Effect.cacheGet cacheKey])
        | some user =>
            match exchangeResult with
            | .error msg => .error (.exc msg, [Effect.cacheGet cacheKey])
            | .ok tok =>
                let encryptedAccess := te.encrypt tok.access_token
                let encryptedRefresh := te.encrypt tok.refresh_token
                let newTokens :=
                  if (w.tokens.find? (fun t =>
                        t.user_id == user.id && t.token_type == "tiktok")).isSome then
                    w.tokens.map (fun t =>
                      if t.user_id == user.id && t.token_type == "tiktok" then
                        { t with
                          access_token := encryptedAccess
                          refresh_token := encryptedRefresh
                          expires_at := now + tok.expires_in
                          open_id := tok.open_id
                          scopes := tok.scope
                          is_active := true }
                      else t)
                  else
                    w.tokens ++ [{ user_id := user.id, token_type := "tiktok",
                                   access_token := encryptedAccess,
                                   refresh_token := encryptedRefresh,
                                   expires_at := now + tok.expires_in,
                                   open_id := tok.open_id, scopes := tok.scope,
                                   is_active := true }]
                let newUsers := w.users.map (fun u =>
                  if u.id == user.id then { u with tiktok_open_id := some tok.open_id }
                  else u)
                .ok { response := .success
                        "TikTok account connected successfully. You can close this tab."
                      world := { cache := w.cache.filter (fun p => p.1 ≠ cacheKey),
                                 users := newUsers, tokens := newTokens }
                      effects := [Effect.cacheGet cacheKey, .dbCommit,
                                  .cacheDelete cacheKey] }

/-- `tiktok_callback_handler` (auth.py 165-272).  `exchangeResult` is the
oracle outcome of `tiktok_oauth_client.get_access_token` for this request
(an `error` covers provider failures, malformed responses and timeouts);
`now` is the current epoch time. -/
def tiktok_callback_handler (te : TokenEncryption)
    (exchangeResult : Except String TikTokTokenResponse) (now : Nat)
    (req : CallbackRequest) (w : World) : HandlerResult :=
  if req.method = .GET ∧ req.challenge.isSome then
    { response := .challengeEcho (req.challenge.getD 0), world := w, effects := [] }
  else if req.method = .GET ∧ truthyStr req.code ∧ truthyStr req.state then
    if truthyStr req.error then
      { response := .httpError 400 (some "TIKTOK_OAUTH_ERROR")
          ("TikTok OAuth error: "
            ++ (if truthyStr req.error_description then req.error_description.getD ""
                else req.error.getD ""))
        world := w, effects := [] }
    else
      match callbackTryBlock te exchangeResult now
              ("oauth_state:" ++ req.state.getD "") w with
      | .ok r => r
      | .error (e, effs) =>
          { response := .httpError 500 none
              ("Failed to connect TikTok account: " ++ renderInnerError e)
            world := w
            effects := effs ++ [.dbRollback] }
  else
    { response := .neutral neutralMessage, world := w, effects := [] }

/-! ## Concrete fixtures used by witnesses and counterexamples -/

/-- A concrete stand-in for the Fernet cipher: prepend a marker, drop it on
decryption.  Satisfies the inversion and non-empty-ciphertext properties the
real cipher provides. -/
def te0 : TokenEncryption :=
  { fernetEncrypt := fun s => "enc:" ++ s
    fernetDecrypt := fun s => s.drop 4 }

/-- A concrete well-formed token-endpoint response. -/
def tok0 : TikTokTokenResponse :=
  { access_token := "at", refresh_token := "rt", open_id := "oid",
    scope := "user.info.basic", expires_in := 7200 }

/-- A demo world: one pending authorization for state `s1` owned by user 1,
no stored credentials. -/
def wDemo : World :=
  { cache := [("oauth_state:s1", { user_id := some 1, code_verifier := some "v" })]
    users := [{ id := 1 }]
    tokens := [] }

/-! ## Claim C9 — encryption round-trip and empty-string behaviour -/

/-- C9: for every non-empty string `x`, decrypting the encryption of `x`
returns `x` (given the Fernet cipher's inversion at `x` and that its
ciphertext is non-empty, which the library guarantees); and encrypting or
decrypting the empty string returns the empty string. -/
theorem token_encryption_roundtrip (te : TokenEncryption) (x : String)
    (hx : x ≠ "")
    (hdec : te.fernetDecrypt (te.fernetEncrypt x) = x)
    (hne : te.fernetEncrypt x ≠ "") :
    te.decrypt (te.encrypt x) = x
      ∧ te.encrypt "" = "" ∧ te.decrypt "" = "" := by
  refine ⟨?_, by simp [TokenEncryption.encrypt], by simp [TokenEncryption.decrypt]⟩
  simp [TokenEncryption.encrypt, TokenEncryption.decrypt, hx, hne, hdec]

/-- Witness for C9 at the concrete cipher `te0` and plaintext `"tok"`. -/
theorem token_encryption_roundtrip_witness :
    ("tok" ≠ ""
        ∧ te0.fernetDecrypt (te0.fernetEncrypt "tok") = "tok"
        ∧ te0.fernetEncrypt "tok" ≠ "")
      ∧ (te0.decrypt (te0.encrypt "tok") = "tok"
          ∧ te0.encrypt "" = "" ∧ te0.decrypt "" = "") :=
  ⟨⟨by decide, by decide, by decide⟩,
   token_encryption_roundtrip te0 "tok" (by decide) (by decide) (by decide)⟩

/-! ## Claim C8 — PKCE pair -/

/-- C8: for every 32-byte random input, the generated challenge is the
unpadded URL-safe base64 of the SHA-256 digest of the UTF-8 bytes of the
verifier, and the verifier is the unpadded URL-safe base64 of the (at
least 32) random bytes. -/
theorem pkce_pair_spec (randomBytes : List Nat)
    (hlen : randomBytes.length = 32)
    (hbytes : ∀ b ∈ randomBytes, b < 256) :
    (generate_pkce_pair randomBytes).2
        = b64UrlNoPad (sha256 (utf8Bytes (generate_pkce_pair randomBytes).1))
      ∧ (generate_pkce_pair randomBytes).1 = b64UrlNoPad randomBytes
      ∧ 32 ≤ randomBytes.length :=
  ⟨rfl, rfl, by omega⟩

set_option maxRecDepth 100000 in
/-- Witness for C8 at 32 zero bytes. -/
theorem pkce_pair_spec_witness :
    ((List.replicate 32 0).length = 32 ∧ ∀ b ∈ List.replicate 32 0, b < 256)
      ∧ ((generate_pkce_pair (List.replicate 32 0)).2
            = b64UrlNoPad (sha256 (utf8Bytes (generate_pkce_pair (List.replicate 32 0)).1))
          ∧ (generate_pkce_pair (List.replicate 32 0)).1
              = b64UrlNoPad (List.replicate 32 0)
          ∧ 32 ≤ (List.replicate 32 0).length) :=
  ⟨⟨by decide, by decide⟩, pkce_pair_spec (List.replicate 32 0) (by decide) (by decide)⟩

/-! ## Claim C5 — authorization URL query parameters -/

/-- C5 counterexample: the authorization URL built by the
`/auth/login/tiktok` endpoint does not carry the claimed parameter set —
`code_challenge` and `code_challenge_method` are absent — and its scope
string is comma-joined. -/
theorem login_tiktok_url_params_counterexample :
    ((loginTiktokParams "ck" "https://cb.example/t" "st").map Prod.fst
        = ["client_key", "scope", "response_type", "redirect_uri", "state"])
      ∧ "code_challenge" ∉ (loginTiktokParams "ck" "https://cb.example/t" "st").map Prod.fst
      ∧ ((loginTiktokParams "ck" "https://cb.example/t" "st").map Prod.fst
          ≠ ["client_key", "scope", "response_type", "redirect_uri", "state",
             "code_challenge", "code_challenge_method"])
      ∧ ',' ∈ loginTiktokScopes.data := by decide

/-- C5 amended: URLs built by `TikTokOAuth2.get_authorization_url` carry
exactly the seven claimed parameters with a comma-free scope, but the
`/auth/login/tiktok` endpoint builds its URL with only five parameters
(no PKCE challenge) and a comma-joined scope list. -/
theorem authorization_url_params (clientKey redirectUri state codeChallenge : String) :
    ((authUrlParams clientKey redirectUri state codeChallenge).map Prod.fst
        = ["client_key", "scope", "response_type", "redirect_uri", "state",
           "code_challenge", "code_challenge_method"])
      ∧ ((authUrlParams clientKey redirectUri state codeChallenge).map Prod.snd
          = [clientKey, authorizeScopes, "code", redirectUri, state,
             codeChallenge, "S256"])
      ∧ ',' ∉ authorizeScopes.data
      ∧ ((loginTiktokParams clientKey redirectUri state).map Prod.fst
          = ["client_key", "scope", "response_type", "redirect_uri", "state"])
      ∧ ',' ∈ loginTiktokScopes.data :=
  ⟨rfl, rfl, by decide, rfl, by decide⟩

/-! ## Claim C6 — webhook challenge echo -/

/-- C6 counterexample: a POST callback carrying `challenge=12345` and no
code is answered with the neutral default message, not the challenge echo
(the echo branch requires the GET method). -/
theorem callback_challenge_post_counterexample :
    (tiktok_callback_handler te0 (.error "unused") 1000
        { method := .POST, challenge := some 12345 } wDemo).response
        = .neutral neutralMessage
      ∧ (tiktok_callback_handler te0 (.error "unused") 1000
          { method := .POST, challenge := some 12345 } wDemo).response
          ≠ .challengeEcho 12345
      ∧ (tiktok_callback_handler te0 (.error "unused") 1000
          { method := .POST, challenge := some 12345 } wDemo).effects = []
      ∧ (tiktok_callback_handler te0 (.error "unused") 1000
          { method := .POST, challenge := some 12345 } wDemo).world = wDemo := by
  refine ⟨rfl, by decide, rfl, rfl⟩

/-- C6 amended: every GET callback carrying a challenge value and no code
is answered exactly by echoing the challenge, with no Pending-Authorization
Store or Credential Vault interaction and an unchanged world. -/
theorem callback_challenge_get_echo (te : TokenEncryption)
    (exchangeResult : Except String TikTokTokenResponse) (now : Nat)
    (req : CallbackRequest) (w : World)
    (hm : req.method = .GET) (hc : req.challenge.isSome = true)
    (hcode : req.code = none) :
    tiktok_callback_handler te exchangeResult now req w
      = { response := .challengeEcho (req.challenge.getD 0),
          world := w, effects := [] } := by
  unfold tiktok_callback_handler
  rw [if_pos ⟨hm, hc⟩]

/-- Witness for C6 (amended) at a concrete GET request. -/
theorem callback_challenge_get_echo_witness :
    (({ method := .GET, challenge := some 12345 } : CallbackRequest).method = .GET
        ∧ ({ method := .GET, challenge := some 12345 } : CallbackRequest).challenge.isSome = true
        ∧ ({ method := .GET, challenge := some 12345 } : CallbackRequest).code = none)
      ∧ tiktok_callback_handler te0 (.error "unused") 1000
          { method := .GET, challenge := some 12345 } wDemo
          = { response := .challengeEcho 12345, world := wDemo, effects := [] } :=
  ⟨⟨rfl, rfl, rfl⟩,
   callback_challenge_get_echo te0 (.error "unused") 1000
     { method := .GET, challenge := some 12345 } wDemo rfl rfl rfl⟩

/-! ## Claim C3 — provider-reported error -/

/-- C3 counterexample: a GET callback carrying `error=access_denied` but no
authorization code is answered with the neutral default message — no
`ProviderAuthorizationError` is raised (the error check sits inside the
`code and state` branch). -/
theorem callback_error_without_code_counterexample :
    (tiktok_callback_handler te0 (.error "unused") 1000
        { method := .GET, error := some "access_denied" } wDemo).response
        = .neutral neutralMessage
      ∧ (tiktok_callback_handler te0 (.error "unused") 1000
          { method := .GET, error := some "access_denied" } wDemo).response
          ≠ .httpError 400 (some "TIKTOK_OAUTH_ERROR")
              "TikTok OAuth error: access_denied"
      ∧ (tiktok_callback_handler te0 (.error "unused") 1000
          { method := .GET, error := some "access_denied" } wDemo).effects = []
      ∧ (tiktok_callback_handler te0 (.error "unused") 1000
          { method := .GET, error := some "access_denied" } wDemo).world = wDemo := by
  refine ⟨rfl, by decide, rfl, rfl⟩

/-- C3 amended: when a GET callback carries a provider-reported error
*together with* a code and a state (and no challenge), the handler
terminates with the 400 `TIKTOK_OAUTH_ERROR` surfacing the description (or
the error code when no description is given), performs no store lookup and
leaves the world unchanged; an error without an accompanying code instead
yields the neutral default response. -/
theorem callback_provider_error (te : TokenEncryption)
    (exchangeResult : Except String TikTokTokenResponse) (now : Nat)
    (req : CallbackRequest) (w : World)
    (hm : req.method = .GET) (hchal : req.challenge = none)
    (hcode : truthyStr req.code = true) (hstate : truthyStr req.state = true)
    (herr : truthyStr req.error = true) :
    tiktok_callback_handler te exchangeResult now req w
      = { response := .httpError 400 (some "TIKTOK_OAUTH_ERROR")
            ("TikTok OAuth error: "
              ++ (if truthyStr req.error_description then req.error_description.getD ""
                  else req.error.getD ""))
          world := w, effects := [] } := by
  unfold tiktok_callback_handler
  rw [if_neg (by simp [hchal]), if_pos ⟨hm, hcode, hstate⟩, if_pos herr]

/-- A concrete errored GET callback: code, state and a provider error with
a human-readable description. -/
def reqProviderError : CallbackRequest :=
  { method := .GET, code := some "c", state := some "s1",
    error := some "access_denied", error_description := some "User denied" }

/-- Witness for C3 (amended) at a concrete errored GET callback. -/
theorem callback_provider_error_witness :
    (reqProviderError.method = .GET
        ∧ reqProviderError.challenge = none
        ∧ truthyStr reqProviderError.code = true
        ∧ truthyStr reqProviderError.state = true
        ∧ truthyStr reqProviderError.error = true)
      ∧ tiktok_callback_handler te0 (.error "unused") 1000 reqProviderError wDemo
          = { response := .httpError 400 (some "TIKTOK_OAUTH_ERROR")
                ("TikTok OAuth error: "
                  ++ (if truthyStr reqProviderError.error_description then
                        reqProviderError.error_description.getD ""
                      else reqProviderError.error.getD ""))
              world := wDemo, effects := [] } :=
  ⟨⟨rfl, rfl, by decide, by decide, by decide⟩,
   callback_provider_error te0 (.error "unused") 1000 reqProviderError wDemo
     rfl rfl (by decide) (by decide) (by decide)⟩

/-! ## Claim C2 — unknown state surfaces as a 500, not a 400 -/

set_option maxRecDepth 100000 in
/-- C2: evaluation at the failing input.  A GET callback whose state has no
live store entry does hit the `INVALID_OR_EXPIRED_STATE` branch, but the
raised 400 `HTTPException` is caught by the surrounding `except Exception`
and re-raised as a 500 — so the caller sees a 500 whose message merely
embeds the 400 detail.  No Credential row is created or modified. -/
theorem callback_unknown_state_surfaces_500 :
    tiktok_callback_handler te0 (.ok tok0) 1000
        { method := .GET, code := some "c", state := some "missing" } wDemo
      = { response := .httpError 500 none
            ("Failed to connect TikTok account: 400: \x7b'error_code': 'INVALID_OR_EXPIRED_STATE', 'message': 'Invalid or expired OAuth state. Please try logging in again.'\x7d")
          world := wDemo
          effects := [.cacheGet "oauth_state:missing", .dbRollback] }
      ∧ (tiktok_callback_handler te0 (.ok tok0) 1000
          { method := .GET, code := some "c", state := some "missing" } wDemo).world.tokens
          = wDemo.tokens := by
  refine ⟨by decide, rfl⟩

/-! ## Claim C1 — when the store entry is deleted -/

set_option maxRecDepth 100000 in
/-- C1 counterexample: a GET callback whose state lookup succeeds but whose
token exchange fails leaves the Pending-Authorization Store entry in place
(the delete only happens on the success path, after the commit). -/
theorem callback_exchange_failure_keeps_entry :
    ((wDemo.cache.find? (fun p => p.1 == "oauth_state:s1")).isSome = true)
      ∧ (tiktok_callback_handler te0 (.error "Token error: timeout") 1000
          { method := .GET, code := some "c", state := some "s1" } wDemo).world.cache
          = wDemo.cache
      ∧ (tiktok_callback_handler te0 (.error "Token error: timeout") 1000
          { method := .GET, code := some "c", state := some "s1" } wDemo).response
          = .httpError 500 none
              "Failed to connect TikTok account: Token error: timeout" := by
  refine ⟨rfl, by decide, by decide⟩

/-- Whether the handler ended in the success acknowledgment. -/
def Response.isSuccess : Response → Bool
  | .success _ => true
  | _ => false

/-- What the `try` block guarantees when it returns normally: the success
message, and a store state from which exactly the looked-up key has been
deleted (the delete is the last step, after the commit). -/
theorem callbackTryBlock_ok (te : TokenEncryption)
    (exchangeResult : Except String TikTokTokenResponse) (now : Nat)
    (cacheKey : String) (w : World) (r : HandlerResult)
    (h : callbackTryBlock te exchangeResult now cacheKey w = .ok r) :
    r.response = .success "TikTok account connected successfully. You can close this tab."
      ∧ r.world.cache = w.cache.filter (fun p => p.1 ≠ cacheKey) := by
  unfold callbackTryBlock at h
  split at h
  · exact Except.noConfusion h
  · split at h
    · exact Except.noConfusion h
    · split at h
      · exact Except.noConfusion h
      · split at h
        · exact Except.noConfusion h
        · simp only [Except.ok.injEq] at h
          subst h
          exact ⟨rfl, rfl⟩

/-- C1 amended: the handler deletes the Pending-Authorization Store entry
for the presented state only when it terminates in the success
acknowledgment (i.e. after the token exchange succeeded and the credential
was committed); on every other outcome — provider error, missing or invalid
session, missing user, exchange failure or timeout — the store is left
unchanged, so a found entry is still present after a terminal error. -/
theorem callback_entry_deleted_iff_success (te : TokenEncryption)
    (exchangeResult : Except String TikTokTokenResponse) (now : Nat)
    (req : CallbackRequest) (w : World) :
    (tiktok_callback_handler te exchangeResult now req w).world.cache
      = if (tiktok_callback_handler te exchangeResult now req w).response.isSuccess then
          w.cache.filter (fun p => p.1 ≠ "oauth_state:" ++ req.state.getD "")
        else w.cache := by
  unfold tiktok_callback_handler
  split
  · simp [Response.isSuccess]
  · split
    · split
      · simp [Response.isSuccess]
      · split
        · rename_i r hr
          obtain ⟨hresp, hcache⟩ := callbackTryBlock_ok _ _ _ _ _ _ hr
          rw [hcache, hresp]
          simp [Response.isSuccess]
        · simp [Response.isSuccess]
    · simp [Response.isSuccess]

/-! ## Claim C7 — engagement averages and their denominators -/

/-- The `engagement_rates` list gathers exactly the rates of the
positive-view videos, in order. -/
theorem engagementRates_eq_filter (videos : List Video) :
    engagementRates videos
      = (videos.filter (fun v => decide (0 < viewsOf v))).map engagementRate := by
  induction videos with
  | nil => rfl
  | cons v rest ih =>
      by_cases h : 0 < viewsOf v
      · simp [engagementRates, h, List.filter_cons, ih]
      · simp [engagementRates, h, List.filter_cons, ih]

/-- C7: `avg_engagement_rate` is the arithmetic mean of the per-video rates
restricted to videos with positive views (0 when there are none, so never an
indeterminate value), while `avg_views_per_video` divides the total views by
the full video count — zero-view videos included — rounded to the nearest
whole number. -/
theorem engagement_average_denominators (videos : List Video) :
    engagementRates videos
        = (videos.filter (fun v => decide (0 < viewsOf v))).map engagementRate
      ∧ avgEngagementRate videos
          = (if videos.filter (fun v => decide (0 < viewsOf v)) = [] then 0
             else ((videos.filter (fun v => decide (0 < viewsOf v))).map engagementRate).sum
                    / ((videos.filter (fun v => decide (0 < viewsOf v))).length : ℚ))
      ∧ (calculate_engagement_metrics videos).avg_engagement_rate
          = pyRound2 (avgEngagementRate videos)
      ∧ (calculate_engagement_metrics videos).avg_views_per_video
          = (if videos = [] then 0
             else pyRound0 ((totalViews videos : ℚ) / (videos.length : ℚ))) := by
  refine ⟨engagementRates_eq_filter videos, ?_, ?_, ?_⟩
  · unfold avgEngagementRate
    rw [engagementRates_eq_filter videos]
    by_cases hf : videos.filter (fun v => decide (0 < viewsOf v)) = []
    · simp [hf]
    · simp [hf, List.map_eq_nil_iff]
  · by_cases hv : videos = []
    · subst hv
      simp [calculate_engagement_metrics, avgEngagementRate, engagementRates,
        pyRound2, pyRoundInt]
    · simp [calculate_engagement_metrics, hv]
  · by_cases hv : videos = []
    · subst hv
      simp [calculate_engagement_metrics]
    · simp [calculate_engagement_metrics, hv]

/-- The specification's worked scenario: three videos with views
1000/2000/3000, likes 100/200/300, comments 10/20/30, shares 5/10/15. -/
def scenarioVideos : List Video :=
  [{ id := "a", view_count := some 1000, like_count := some 100,
     comment_count := some 10, share_count := some 5 },
   { id := "b", view_count := some 2000, like_count := some 200,
     comment_count := some 20, share_count := some 10 },
   { id := "c", view_count := some 3000, like_count := some 300,
     comment_count := some 30, share_count := some 15 }]

/-- Sanity check: on the worked scenario every per-video rate is 11.5,
hence both averages come out as the specification states, and the 3000-view
video is `most_viewed_video`. -/
theorem engagement_scenario_check :
    (calculate_engagement_metrics scenarioVideos).total_views = 6000
      ∧ (calculate_engagement_metrics scenarioVideos).avg_engagement_rate = 23/2
      ∧ (calculate_engagement_metrics scenarioVideos).avg_views_per_video = 2000
      ∧ ((calculate_engagement_metrics scenarioVideos).most_viewed_video).map
          (fun s => s.id) = some "c" := by
  have hr : pyRound2 ((23:ℚ)/2) = 23/2 := by
    unfold pyRound2 pyRoundInt
    norm_num
  have ha : avgEngagementRate scenarioVideos = 23/2 := by
    simp [avgEngagementRate, engagementRates, engagementRate, scenarioVideos,
      viewsOf, likesOf, commentsOf, sharesOf]
    norm_num
  have hv : pyRound0 ((totalViews scenarioVideos : ℚ) / (scenarioVideos.length : ℚ))
      = 2000 := by
    have h6 : totalViews scenarioVideos = 6000 := by decide
    have hl : scenarioVideos.length = 3 := by decide
    rw [h6, hl]
    unfold pyRound0 pyRoundInt
    norm_num
  unfold calculate_engagement_metrics
  rw [if_neg (by decide : ¬ (scenarioVideos = []))]
  refine ⟨by decide, ?_, hv, ?_⟩
  · show pyRound2 (avgEngagementRate scenarioVideos) = 23/2
    rw [ha]
    exact hr
  · norm_num [pyMaxBy, scenarioVideos, viewsOf]

/-! ## Claim C4 — trend computation strips leading zeros first -/

/-- `stripLead` never lengthens a list. -/
theorem stripLead_length_le (l : List ℚ) : (stripLead l).length ≤ l.length := by
  induction l with
  | nil => simp [stripLead]
  | cons v rest ih =>
      by_cases h : 0 < v
      · simp [stripLead, h]
      · simp only [stripLead, if_neg h]
        exact le_trans ih (by simp)

/-- Two videos in different weeks, the earlier week with zero views. -/
def vWeek0 : Video := { create_time := some 86400, view_count := some 0 }

/-- Two videos in different weeks, the later week with ten views. -/
def vWeek1 : Video := { create_time := some 345600, view_count := some 10 }

set_option maxRecDepth 100000 in
/-- C4 counterexample: on the bucket sequence `[0, 10]` the code returns a
trend of 0 (the leading zero is stripped first, leaving fewer than two
values), while the claimed midpoint-split formula yields 100; with exactly
two videos in different weeks whose earlier week has zero views, the
computed weekly view trend is therefore 0, not the claimed 100. -/
theorem trend_counterexample :
    calculateTrend [0, 10] = 0
      ∧ claimTrend [0, 10] = 100
      ∧ calculateTrend [0, 10] ≠ claimTrend [0, 10]
      ∧ (weeklyDataOf [vWeek0, vWeek1]).map (fun p => (p.1, p.2.views))
          = [("1970-W00", 0), ("1970-W01", 10)]
      ∧ (calculate_growth_trends [vWeek0, vWeek1]).weekly_view_trend = 0 := by
  have h1 : calculateTrend [0, 10] = 0 := by
    norm_num [calculateTrend, stripLead]
  have h2 : claimTrend [0, 10] = 100 := by
    norm_num [claimTrend]
  have h5 : (calculate_growth_trends [vWeek0, vWeek1]).weekly_view_trend = 0 := by
    have hkeys : (weeklyDataOf [vWeek0, vWeek1]).map Prod.fst
        = ["1970-W00", "1970-W01"] := by decide
    have hv0 : (lookupWeek (weeklyDataOf [vWeek0, vWeek1]) "1970-W00").views = 0 := by
      decide
    have hv1 : (lookupWeek (weeklyDataOf [vWeek0, vWeek1]) "1970-W01").views = 10 := by
      decide
    have hsort : pySorted strLe ["1970-W00", "1970-W01"]
        = ["1970-W00", "1970-W01"] := by decide
    simp only [calculate_growth_trends, growthFromWD, hkeys, hsort]
    rw [if_neg (by norm_num)]
    norm_num [takeLast, hv0, hv1, calculateTrend, stripLead, pyRound2, pyRoundInt]
  exact ⟨h1, h2, by rw [h1, h2]; norm_num, by decide, h5⟩

/-- C4 amended: the trend computation first drops leading zero values (a
value is kept once a positive value has been seen); if fewer than two values
remain the trend is 0; otherwise the midpoint split, half averages,
`(second − first) / first × 100` formula and zero-first-half special case of
the claim are applied to the *stripped* sequence. -/
theorem calculateTrend_eq_claimTrend_stripped (values : List ℚ) :
    calculateTrend values = claimTrend (stripLead values) := by
  unfold calculateTrend claimTrend
  by_cases h2 : values.length < 2
  · have hs : (stripLead values).length < 2 :=
      lt_of_le_of_lt (stripLead_length_le values) h2
    simp [h2, hs]
  · rw [if_neg h2]
    by_cases hnz : (stripLead values).length < 2
    · rw [if_pos hnz, if_pos hnz]
    · have hmid : 0 < (stripLead values).length / 2 :=
        Nat.div_pos (by omega) (by norm_num)
      have hdrop : (stripLead values).drop ((stripLead values).length / 2) ≠ [] := by
        apply List.ne_nil_of_length_pos
        rw [List.length_drop]
        omega
      simp only [if_neg hnz, if_pos hmid, if_neg hdrop, List.length_drop]

/-! ## Claim C10 — zero/missing timestamps and posting frequency -/

/-- The bucketing fold ignores every video whose `create_time` is missing
or zero. -/
theorem bucketFold_skips_untimed (l : List Video) :
    ∀ acc : List (String × WeekStats),
      l.foldl bucketStep acc
        = (l.filter (fun v => decide (createOf v ≠ 0))).foldl bucketStep acc := by
  induction l with
  | nil => intro acc; rfl
  | cons v rest ih =>
      intro acc
      by_cases h : createOf v = 0
      · simp [List.filter_cons, h, bucketStep, ih]
      · simp [List.filter_cons, h, bucketStep, ih]

/-- `updateWeek` keeps every bucket's video count positive. -/
theorem updateWeek_count_pos (wd : List (String × WeekStats)) (k : String) (v : Video)
    (h : ∀ p ∈ wd, 0 < p.2.count) : ∀ p ∈ updateWeek wd k v, 0 < p.2.count := by
  induction wd with
  | nil =>
      intro p hp
      simp [updateWeek] at hp
      subst hp
      simp [addVideoToWeek]
  | cons q rest ih =>
      obtain ⟨a, s⟩ := q
      intro p hp
      by_cases hk : a = k
      · rw [show updateWeek ((a, s) :: rest) k v
              = (a, addVideoToWeek s v) :: rest from by simp [updateWeek, hk]] at hp
        rw [List.mem_cons] at hp
        rcases hp with rfl | hp
        · simp [addVideoToWeek]
        · exact h p (List.mem_cons_of_mem _ hp)
      · rw [show updateWeek ((a, s) :: rest) k v
              = (a, s) :: updateWeek rest k v from by simp [updateWeek, hk]] at hp
        rw [List.mem_cons] at hp
        rcases hp with rfl | hp
        · exact h (a, s) (List.mem_cons_self _ _)
        · exact ih (fun r hr => h r (List.mem_cons_of_mem _ hr)) p hp

/-- Every bucket produced by the bucketing fold contains at least one video. -/
theorem bucketFold_count_pos (l : List Video) :
    ∀ acc : List (String × WeekStats), (∀ p ∈ acc, 0 < p.2.count) →
      ∀ p ∈ l.foldl bucketStep acc, 0 < p.2.count := by
  induction l with
  | nil => intro acc hacc; exact hacc
  | cons v rest ih =>
      intro acc hacc
      by_cases h : createOf v = 0
      · rw [show (v :: rest).foldl bucketStep acc = rest.foldl bucketStep acc from by
            simp [bucketStep, h]]
        exact ih acc hacc
      · rw [show (v :: rest).foldl bucketStep acc
              = rest.foldl bucketStep (updateWeek acc (weekKey (createOf v)) v) from by
            simp [bucketStep, h]]
        exact ih _ (updateWeek_count_pos acc _ v hacc)

/-- C10: a video with a missing or zero creation timestamp is excluded from
week bucketing, so the buckets — and with them the trend percentages and
`best_performing_week`, which are functions of the buckets alone — are
computed from the timed videos only; every bucket holds at least one video;
and `posting_frequency` divides the *full* input length (untimed videos
included) by the number of those non-empty buckets. -/
theorem growth_trends_untimed_videos (videos : List Video) :
    weeklyDataOf videos
        = ((sortVideos videos).filter (fun v => decide (createOf v ≠ 0))).foldl
            bucketStep []
      ∧ (∀ p ∈ weeklyDataOf videos, 0 < p.2.count)
      ∧ calculate_growth_trends videos
          = (if videos.length < 2 then
               { weekly_view_trend := 0, weekly_engagement_trend := 0,
                 posting_frequency := 0, best_performing_week := none }
             else
               growthFromWD
                 (((sortVideos videos).filter
                     (fun v => decide (createOf v ≠ 0))).foldl bucketStep [])
                 videos.length)
      ∧ (growthFromWD (weeklyDataOf videos) videos.length).posting_frequency
          = pyRound2 (if 0 < (weeklyDataOf videos).length then
                        (videos.length : ℚ) / ((weeklyDataOf videos).length : ℚ)
                      else 0) := by
  have h1 : weeklyDataOf videos
      = ((sortVideos videos).filter (fun v => decide (createOf v ≠ 0))).foldl
          bucketStep [] :=
    bucketFold_skips_untimed (sortVideos videos) []
  refine ⟨h1, ?_, ?_, rfl⟩
  · exact bucketFold_count_pos (sortVideos videos) [] (by intro p hp; cases hp)
  · unfold calculate_growth_trends
    rw [h1]

end TikTokApi
